import Mathlib

/-!
Verification development for the SinglePileAnalysis repository.

The repository models the axial load-displacement behaviour of a single pile
in layered soil and calibrates four soil-interaction parameters against a
measured load test.  Python floats are modelled as exact rationals (`ℚ`);
a float NaN is modelled as `none` in `Option ℚ`.  The constant `np.pi` is
modelled as an explicit parameter `pi : ℚ`; every statement that depends on
it only uses `0 < pi`, which holds for the actual constant.  The external
OpenSees engine (`openseespy.opensees`, imported as `ops`) keeps global
mutable state; the calls the repository makes into it are modelled by the
command language `OpsCmd` and the state `OpsState`, and the process-global
tag counter of `tag_generator.py` is modelled by explicit counter passing.
-/

/-! ## Soil data model (src/materials.py) -/

/-- One soil layer, `materials.py` lines 20-29: a depth interval together
with endpoint values of shear modulus, Poisson ratio and ultimate shear
stress. -/
structure SoilLayer where
  up_depth : ℚ
  bottom_depth : ℚ
  up_shear_modulus : ℚ
  bottom_shear_modulus : ℚ
  up_poisson_ratio : ℚ
  bottom_poisson_ratio : ℚ
  up_tau_f : ℚ
  bottom_tau_f : ℚ
deriving DecidableEq

/-- Source `SoilLayer.length` (materials.py lines 31-33):
`return self.up_depth - self.bottom_depth`. -/
def SoilLayer.length (l : SoilLayer) : ℚ :=
  l.up_depth - l.bottom_depth

/-- The layer thickness as the spec words it (`bottom_depth` minus
`up_depth`); a second definition kept for comparison with the source's
`SoilLayer.length`. -/
def SoilLayer.thicknessSpec (l : SoilLayer) : ℚ :=
  l.bottom_depth - l.up_depth

/-- Source `SoilLayer.shear_modulus` (materials.py lines 47-50): linear
interpolation written as `up + (bottom - up) / (bottom_depth - up_depth) *
(depth - up_depth)`. -/
def SoilLayer.shear_modulus (l : SoilLayer) (depth : ℚ) : ℚ :=
  l.up_shear_modulus +
    (l.bottom_shear_modulus - l.up_shear_modulus) / (l.bottom_depth - l.up_depth) *
      (depth - l.up_depth)

/-- Source `SoilLayer.poisson_ratio` (materials.py lines 52-55). -/
def SoilLayer.poisson_ratio (l : SoilLayer) (depth : ℚ) : ℚ :=
  l.up_poisson_ratio +
    (l.bottom_poisson_ratio - l.up_poisson_ratio) / (l.bottom_depth - l.up_depth) *
      (depth - l.up_depth)

/-- Source `SoilLayer.tau_f` (materials.py lines 57-60). -/
def SoilLayer.tau_f (l : SoilLayer) (depth : ℚ) : ℚ :=
  l.up_tau_f +
    (l.bottom_tau_f - l.up_tau_f) / (l.bottom_depth - l.up_depth) *
      (depth - l.up_depth)

/-- Linear interpolation between the endpoints `(x0, y0)` and `(x1, y1)`
with `x` as the interpolation parameter; written from the spec's words
for comparison with the formulas of the source. -/
def lerpSpec (x0 x1 y0 y1 x : ℚ) : ℚ :=
  y0 + (x - x0) / (x1 - x0) * (y1 - y0)

/-- Source `SoilProfile` (materials.py lines 63-66): an ordered list of
layers, plus the (unused) declared layer count. -/
structure SoilProfile where
  layers : List SoilLayer
  soil_layers_count : Nat
deriving DecidableEq

/-- Source `SoilProfile.pile_length` (materials.py lines 72-75): the sum of
`SoilLayer.length` over the layers. -/
def SoilProfile.pile_length (p : SoilProfile) : ℚ :=
  (p.layers.map SoilLayer.length).sum

/-- Source `SoilProfile.__find_layer` (materials.py lines 88-92): the first
layer whose closed interval `[up_depth, bottom_depth]` contains the depth;
the `none` result models the raised `Exception` (LayerNotFound). -/
def SoilProfile.findLayer (p : SoilProfile) (depth : ℚ) : Option SoilLayer :=
  p.layers.find? (fun l => decide (l.up_depth ≤ depth ∧ depth ≤ l.bottom_depth))

/-- Source `SoilProfile.shear_modulus` (materials.py lines 94-96): locate
the layer and delegate; `none` models the LayerNotFound exception. -/
def SoilProfile.shear_modulus (p : SoilProfile) (depth : ℚ) : Option ℚ :=
  (p.findLayer depth).map (fun l => l.shear_modulus depth)

/-- Source `SoilProfile.poisson_ratio` (materials.py lines 98-100). -/
def SoilProfile.poisson_ratio (p : SoilProfile) (depth : ℚ) : Option ℚ :=
  (p.findLayer depth).map (fun l => l.poisson_ratio depth)

/-- Source `SoilProfile.tau_f` (materials.py lines 102-104). -/
def SoilProfile.tau_f (p : SoilProfile) (depth : ℚ) : Option ℚ :=
  (p.findLayer depth).map (fun l => l.tau_f depth)

/-- Source `SoilProfile.tip_shear_modulus` (materials.py lines 106-108):
the shear modulus evaluated at `pile_length`. -/
def SoilProfile.tip_shear_modulus (p : SoilProfile) : Option ℚ :=
  p.shear_modulus p.pile_length

/-- Source `SoilProfile.tip_poisson_ratio` (materials.py lines 110-112). -/
def SoilProfile.tip_poisson_ratio (p : SoilProfile) : Option ℚ :=
  p.poisson_ratio p.pile_length

/-- The single soil layer of the O'Neill 1982 load test
(src/load_tests.py lines 360-371 and every test file): depths 0 to 13.1,
constant shear modulus 65e6, constant Poisson ratio 0.5, `tau_f` from
19e3 to 93e3. -/
def onillLayer : SoilLayer :=
  ⟨0, 131 / 10, 65000000, 65000000, 1 / 2, 1 / 2, 19000, 93000⟩

/-- The O'Neill 1982 soil profile: the single layer above. -/
def onillProfile : SoilProfile :=
  ⟨[onillLayer], 1⟩

/-- A small concrete layer (depths 0 to 2, shear modulus 10 to 20,
Poisson ratio 1/4 to 1/2, ultimate shear stress 5 to 7) used to
instantiate the interpolation statements. -/
def sampleLayer : SoilLayer :=
  ⟨0, 2, 10, 20, 1 / 4, 1 / 2, 5, 7⟩

/-- Profile holding `sampleLayer` only. -/
def sampleProfile : SoilProfile :=
  ⟨[sampleLayer], 1⟩

/-! ## Tag generation (src/tag_generator.py) -/

/-- Source `get_tag` (tag_generator.py lines 4-10) with the process-global
counter made explicit: increment the counter and return it, together with
the new counter value. -/
def get_tag (counter : Nat) : Nat × Nat :=
  (counter + 1, counter + 1)

/-- Allocate `n` successive tags starting from counter value `c`, returning
the tags in allocation order together with the final counter.  Each tagged
object (node, material, element) performs one `get_tag` call at
construction (tag_generator.py lines 13-14). -/
def allocTags : Nat → Nat → List Nat × Nat
  | c, 0 => ([], c)
  | c, n + 1 =>
    let t := get_tag c
    let rest := allocTags t.2 n
    (t.1 :: rest.1, rest.2)

/-! ## Friction spring law (src/materials.py, PileFrictionMaterial)

The hyperbolic law is stated in terms of the derived initial stiffness
`Ke = Ke_friction()` and ultimate capacity `tau_ult = tau_ult()`
(materials.py lines 154-164); the source's `Ke_friction` involves
`np.log`, which has no exact rational value, so the law below takes the
two derived quantities as inputs, exactly as the methods `a`, `b` and
`__get_forces` (lines 166-177) consume them. -/

/-- Source `PileFrictionMaterial.a` (materials.py lines 169-170):
`1 / self.Ke_friction()`. -/
def PileFrictionMaterial.a (Ke : ℚ) : ℚ := 1 / Ke

/-- Source `PileFrictionMaterial.b` (materials.py lines 166-167):
`1 / self.tau_ult()`. -/
def PileFrictionMaterial.b (tau_ult : ℚ) : ℚ := 1 / tau_ult

/-- Source `PileFrictionMaterial.__get_forces` (materials.py lines
176-177): `strains / (self.a() + self.b() * strains)` pointwise. -/
def PileFrictionMaterial.force (Ke tau_ult strain : ℚ) : ℚ :=
  strain / (PileFrictionMaterial.a Ke + PileFrictionMaterial.b tau_ult * strain)

/-- The sampled force table: `__get_forces` applied to each sampled
displacement.  The source samples `np.geomspace(1e-12, 0.1, 50)`
(materials.py lines 172-174), a strictly increasing list of positive
values; the displacements are taken as a parameter here because the
geometric grid points are irrational. -/
def PileFrictionMaterial.sampleForces (Ke tau_ult : ℚ) (strains : List ℚ) : List ℚ :=
  strains.map (PileFrictionMaterial.force Ke tau_ult)

/-! ## Tip spring law (src/materials.py, PileTipMaterial) -/

/-- Source `PileTipMaterial` fields (materials.py lines 187-193). -/
structure PileTipMaterial where
  soil_profile : SoilProfile
  pile_radius : ℚ
  Rfb : ℚ
  Sbu : ℚ
  alpha21 : ℚ
deriving DecidableEq

/-- Source `PileTipMaterial.pile_tip_area` (materials.py lines 200-202):
`np.pi * self.pile_radius**2`. -/
def PileTipMaterial.pile_tip_area (pi : ℚ) (m : PileTipMaterial) : ℚ :=
  pi * m.pile_radius ^ 2

/-- Source `PileTipMaterial.k1b` (materials.py lines 204-212):
`(4 * tip_shear_modulus / (np.pi * pile_radius * (1 - tip_poisson_ratio)))
* pile_tip_area`; `none` when the tip property lookup fails. -/
def PileTipMaterial.k1b (pi : ℚ) (m : PileTipMaterial) : Option ℚ :=
  match m.soil_profile.tip_shear_modulus, m.soil_profile.tip_poisson_ratio with
  | some g, some v =>
    some (4 * g / (pi * m.pile_radius * (1 - v)) * m.pile_tip_area pi)
  | _, _ => none

/-- Source `PileTipMaterial.k1` (materials.py lines 214-218):
`self.k1b / self.Rfb`. -/
def PileTipMaterial.k1 (pi : ℚ) (m : PileTipMaterial) : Option ℚ :=
  (m.k1b pi).map (fun x => x / m.Rfb)

/-- Source `PileTipMaterial.k2` (materials.py lines 220-222):
`self.k1 * self.alpha21`. -/
def PileTipMaterial.k2 (pi : ℚ) (m : PileTipMaterial) : Option ℚ :=
  (m.k1 pi).map (fun x => x * m.alpha21)

/-- Source `PileTipMaterial.__get_strains` (materials.py lines 224-225):
`[0.0, Sbu, 0.1]`. -/
def PileTipMaterial.strains (m : PileTipMaterial) : List ℚ :=
  [0, m.Sbu, 1 / 10]

/-- Source `PileTipMaterial.__get_stresses` (materials.py lines 227-230):
`[0.0, Sbu * k1, Sbu * k1 + (0.1 - Sbu) * k2]`. -/
def PileTipMaterial.stresses (pi : ℚ) (m : PileTipMaterial) : Option (List ℚ) :=
  match m.k1 pi, m.k2 pi with
  | some K1, some K2 =>
    some [0, m.Sbu * K1, m.Sbu * K1 + (1 / 10 - m.Sbu) * K2]
  | _, _ => none

/-- The piecewise-linear function through the breakpoints
`(0,0)`, `(Sbu, Sbu*K1)`, `(0.1, Sbu*K1 + (0.1-Sbu)*K2)`: the law the
ElasticMultiLinear engine material realises from the strain/stress table
(materials.py lines 232-237). -/
def PileTipMaterial.lawAt (K1 K2 Sbu d : ℚ) : ℚ :=
  if d ≤ Sbu then d * K1 else Sbu * K1 + (d - Sbu) * K2

/-- A soil layer placed at negative depths (up -10, bottom -1), constant
unit shear modulus and ultimate shear stress, zero Poisson ratio.  With
the source's `SoilLayer.length` its profile has `pile_length = -9`, which
this layer's interval happens to contain, so the tip property lookups
succeed. -/
def negDepthLayer : SoilLayer :=
  ⟨-10, -1, 1, 1, 0, 0, 1, 1⟩

/-- Profile holding `negDepthLayer` only. -/
def negDepthProfile : SoilProfile :=
  ⟨[negDepthLayer], 1⟩

/-- A tip material over `negDepthProfile` with pile radius `-1`:
all of the claim's stated hypotheses hold for it, yet its stress table
decreases. -/
def tipMaterialNegRadius : PileTipMaterial :=
  ⟨negDepthProfile, -1, 1, 1 / 20, 0⟩

/-- A tip material over `negDepthProfile` with positive radius `1`,
`Rfb = 1`, `Sbu = 1/20`, `alpha21 = 1/2`. -/
def tipMaterialPos : PileTipMaterial :=
  ⟨negDepthProfile, 1, 1, 1 / 20, 1 / 2⟩

/-! ## Pile element cross-section (src/fea_model.py, PileElement) -/

/-- Source `PileElement` fields (fea_model.py lines 53-59); nodes and
material are represented by their engine tags. -/
structure PileElement where
  first_node : Nat
  second_node : Nat
  pile_radius : ℚ
  material : Nat
  area : Option ℚ
deriving DecidableEq

/-- Source `PileElement.__area` (fea_model.py lines 61-65):
`if self.area: return self.area` then `return np.pi * pile_radius**2`.
Python truthiness makes both `None` and `0.0` fall through to the
circular-section formula. -/
def PileElement.sectionArea (pi : ℚ) (e : PileElement) : ℚ :=
  match e.area with
  | some a => if a = 0 then pi * e.pile_radius ^ 2 else a
  | none => pi * e.pile_radius ^ 2

/-! ## Engine command trace (openseespy calls made by src/fea_model.py)

The external engine's global model is the state; each `ops.*` call the
repository makes is one command.  Pure queries (`ops.getLoadFactor`,
`ops.nodeDisp`) read the state without changing it and are omitted. -/

/-- One call into the OpenSees engine. -/
inductive OpsCmd where
  | wipe
  | modelBasic
  | node (tag : Nat) (depth : ℚ)
  | fix (tag : Nat)
  | uniaxialMaterial (tag : Nat)
  | element (tag : Nat) (nodeA : Nat) (nodeB : Nat)
  | timeSeries
  | patternPlain
  | load (nodeTag : Nat) (value : ℚ)
  | system
  | numberer
  | constraints
  | integrator
  | algorithm
  | analysisStatic
  | analyzeStep
deriving DecidableEq

/-- The engine's global model bookkeeping: tags of the created nodes,
materials and elements, the restrained nodes, the applied nodal loads,
and the number of increments run. -/
structure OpsState where
  nodeTags : List Nat
  materialTags : List Nat
  elementTags : List Nat
  restrainedTags : List Nat
  nodalLoads : List (Nat × ℚ)
  analyzeCount : Nat
deriving DecidableEq

/-- The engine state before anything is created. -/
def initialOps : OpsState :=
  ⟨[], [], [], [], [], 0⟩

/-- Effect of one engine call on the global model.  `wipe` discards
everything; creation calls append a tag; the analysis-configuration calls
(`system` … `analysisStatic`) and `ops.analyze` itself create no nodes,
materials or elements. -/
def applyCmd (s : OpsState) : OpsCmd → OpsState
  | OpsCmd.wipe => initialOps
  | OpsCmd.node t _ => { s with nodeTags := s.nodeTags ++ [t] }
  | OpsCmd.fix t => { s with restrainedTags := s.restrainedTags ++ [t] }
  | OpsCmd.uniaxialMaterial t => { s with materialTags := s.materialTags ++ [t] }
  | OpsCmd.element t _ _ => { s with elementTags := s.elementTags ++ [t] }
  | OpsCmd.load t v => { s with nodalLoads := s.nodalLoads ++ [(t, v)] }
  | OpsCmd.analyzeStep => { s with analyzeCount := s.analyzeCount + 1 }
  | _ => s

/-- Run a list of engine calls from a state. -/
def runCmds (s : OpsState) (cmds : List OpsCmd) : OpsState :=
  cmds.foldl applyCmd s

/-- `np.linspace(0, stop, num)`: `num` equally spaced values from 0 to
`stop` (fea_model.py line 141). -/
def linspace (stop : ℚ) (num : Nat) : List ℚ :=
  (List.range num).map (fun i => stop * i / ((num : ℚ) - 1))

/-- The engine calls `Pile.model_post_init` performs (fea_model.py lines
122-202), with the tag counter starting at `c0` and `N = number_of_node`:
wipe and declare the model, create the structure material (tag `c0+1`),
create the `N` pile nodes then the `N` fixed nodes (`__mesh`), restrain
the fixed nodes, create the `N-1` truss elements between consecutive pile
nodes, then for each pile node one spring material followed by one
zero-length element against its fixed partner, and finally the load
pattern at the head node (the pile node at depth 0, tag `c0+2`).
Returns the commands and the final tag counter. -/
def Pile.buildCmds (c0 N : Nat) (pile_length load : ℚ) : List OpsCmd × Nat :=
  let depths := linspace pile_length N
  let pileTags := (List.range N).map (fun i => c0 + 2 + i)
  let fixedTags := (List.range N).map (fun i => c0 + 2 + N + i)
  let soilBase := c0 + 1 + 2 * N + (N - 1)
  let cmds :=
    [OpsCmd.wipe, OpsCmd.modelBasic, OpsCmd.uniaxialMaterial (c0 + 1)]
      ++ (List.zip pileTags depths).map (fun td => OpsCmd.node td.1 td.2)
      ++ (List.zip fixedTags depths).map (fun td => OpsCmd.node td.1 td.2)
      ++ fixedTags.map OpsCmd.fix
      ++ (List.range (N - 1)).map
          (fun i => OpsCmd.element (c0 + 2 + 2 * N + i) (c0 + 2 + i) (c0 + 3 + i))
      ++ ((List.range N).map
          (fun i =>
            [OpsCmd.uniaxialMaterial (soilBase + 2 * i + 1),
             OpsCmd.element (soilBase + 2 * i + 2) (c0 + 2 + N + i) (c0 + 2 + i)])).flatten
      ++ [OpsCmd.timeSeries, OpsCmd.patternPlain, OpsCmd.load (c0 + 2) load]
  (cmds, soilBase + 2 * N)

/-- The engine calls one `Calibrator.cost` evaluation performs
(calibrator.py lines 50-55 together with `Pile.analyze`, fea_model.py
lines 204-220): it reassigns `pile.calibration_params` (a pure Python
field write, no engine call) and calls `analyze`, which only configures
the solver and runs `number_of_steps` increments.  No `wipe`, no node,
material or element creation occurs. -/
def Calibrator.costCmds (number_of_steps : Nat) : List OpsCmd :=
  [OpsCmd.system, OpsCmd.numberer, OpsCmd.constraints,
   OpsCmd.integrator, OpsCmd.algorithm, OpsCmd.analysisStatic]
    ++ List.replicate number_of_steps OpsCmd.analyzeStep

/-! ## Incremental analysis loop (src/fea_model.py, Pile.analyze)

The engine's behaviour across the increments is abstracted by three
functions of the step index: `conv` is the success status returned by
`ops.analyze(1)` at that step, `loadFactor` the value of
`ops.getLoadFactor(1)` right after it, and `nodeDisp` the head node's
displacement `ops.nodeDisp(head, 1)`. -/

/-- Source `Pile.analyze` loop (fea_model.py lines 211-220): for every
step in `range(number_of_steps)` it calls `ops.analyze(1)` — discarding
the returned status `conv step` — then appends `loadFactor * load` to the
force history and the head displacement to the displacement history, and
finally returns `[head_displacement, head_force]`. -/
def Pile.analyze (number_of_steps : Nat) (load : ℚ) (conv : Nat → Bool)
    (loadFactor : Nat → ℚ) (nodeDisp : Nat → ℚ) : List ℚ × List ℚ :=
  ((List.range number_of_steps).map nodeDisp,
   (List.range number_of_steps).map (fun s => loadFactor s * load))

/-! ## Cost function arithmetic (src/calibrator.py, Calibrator)

Values flowing through `cost` are floats that may be NaN: modelled as
`Option ℚ` with `none` for NaN, since every numpy operation used here
(`-`, `**2`, `sum`, `sqrt`) maps NaN to NaN. -/

/-- A numpy float: a rational number or NaN. -/
abbrev NpFloat := Option ℚ

/-- Elementwise `y2 - y1` entry: NaN-propagating subtraction. -/
def npSub (x y : NpFloat) : NpFloat :=
  match x, y with
  | some a, some b => some (a - b)
  | _, _ => none

/-- NaN-propagating square, `(...)**2`. -/
def npSq (x : NpFloat) : NpFloat :=
  match x with
  | some a => some (a * a)
  | none => none

/-- NaN-propagating binary addition used by `sum`. -/
def npAdd (x acc : NpFloat) : NpFloat :=
  match x, acc with
  | some a, some s => some (a + s)
  | _, _ => none

/-- `sum(...)` over a vector: NaN whenever any entry is NaN. -/
def npSum (l : List NpFloat) : NpFloat :=
  l.foldr npAdd (some 0)

/-- The value of `np.sqrt` on the summed squares: NaN stays NaN, a
negative argument gives NaN, and a nonnegative rational `s` denotes the
real number `√s`, kept symbolically as `sqrtOf s` (so the float `1e6` is
`sqrtOf (10^12)`). -/
inductive LSValue where
  | nan : LSValue
  | sqrtOf : ℚ → LSValue
deriving DecidableEq

/-- `np.sqrt` applied to a NpFloat. -/
def npSqrt (x : NpFloat) : LSValue :=
  match x with
  | some s => if s < 0 then LSValue.nan else LSValue.sqrtOf s
  | none => LSValue.nan

/-- Source `Calibrator.least_square` (calibrator.py lines 57-58):
`np.sqrt(sum((y2 - y1) ** 2))`. -/
def Calibrator.least_square (y1 y2 : List NpFloat) : LSValue :=
  npSqrt (npSum ((List.zipWith npSub y2 y1).map npSq))

/-- The value `Calibrator.cost` returns (calibrator.py line 55):
`least_square` of the interpolated force vector against the measured
forces.  The scipy interpolation producing the first argument is an
external collaborator. -/
def Calibrator.cost_value (interp_forces measured_forces : List NpFloat) : LSValue :=
  Calibrator.least_square interp_forces measured_forces

/-! ## Theorems -/

/-- C1: the source's `SoilLayer.length` is the negation of the layer
thickness `bottom_depth - up_depth`, so for the O'Neill 1982 profile
(whose single layer runs from depth 0 to 13.1) `SoilProfile.pile_length`
evaluates to `-13.1` rather than the `13.1` the claim states, and the
tip-property lookup at `pile_length` consequently fails (LayerNotFound). -/
theorem soilLayer_length_is_negated_thickness :
    (∀ l : SoilLayer, l.length = -l.thicknessSpec)
    ∧ onillLayer.length = -(131 / 10)
    ∧ onillLayer.thicknessSpec = 131 / 10
    ∧ onillProfile.pile_length = -(131 / 10)
    ∧ onillProfile.pile_length ≠ 131 / 10
    ∧ onillProfile.tip_shear_modulus = none := by
  refine ⟨fun l => by simp [SoilLayer.length, SoilLayer.thicknessSpec],
    ?_, ?_, ?_, ?_, ?_⟩
  · norm_num [onillLayer, SoilLayer.length]
  · norm_num [onillLayer, SoilLayer.thicknessSpec]
  · norm_num [onillProfile, onillLayer, SoilProfile.pile_length, SoilLayer.length]
  · norm_num [onillProfile, onillLayer, SoilProfile.pile_length, SoilLayer.length]
  · norm_num [SoilProfile.tip_shear_modulus, SoilProfile.shear_modulus,
      SoilProfile.findLayer, SoilProfile.pile_length, List.find?,
      onillProfile, onillLayer, SoilLayer.length]

/-- C8: the depth-indexed soil properties fail (return `none`, modelling
the raised LayerNotFound exception) if and only if no layer's closed
interval contains the queried depth, and they return a value whenever
some layer contains the depth. -/
theorem soilProfile_layer_not_found_iff (p : SoilProfile) (d : ℚ) :
    (p.shear_modulus d = none ↔
      ∀ l ∈ p.layers, ¬(l.up_depth ≤ d ∧ d ≤ l.bottom_depth))
    ∧ (p.poisson_ratio d = none ↔
      ∀ l ∈ p.layers, ¬(l.up_depth ≤ d ∧ d ≤ l.bottom_depth))
    ∧ (p.tau_f d = none ↔
      ∀ l ∈ p.layers, ¬(l.up_depth ≤ d ∧ d ≤ l.bottom_depth))
    ∧ ((p.shear_modulus d).isSome ↔
      ∃ l ∈ p.layers, l.up_depth ≤ d ∧ d ≤ l.bottom_depth) := by
  refine ⟨?_, ?_, ?_, ?_⟩
  · simp [SoilProfile.shear_modulus, SoilProfile.findLayer, List.find?_eq_none]
  · simp [SoilProfile.poisson_ratio, SoilProfile.findLayer, List.find?_eq_none]
  · simp [SoilProfile.tau_f, SoilProfile.findLayer, List.find?_eq_none]
  · simp [SoilProfile.shear_modulus, SoilProfile.findLayer, List.find?_isSome]

/-- Helper: the tags produced by `allocTags c n` are exactly the `n`
values strictly between `c` and `c + n`, in increasing order, and the
final counter is `c + n`. -/
theorem allocTags_spec (n : Nat) : ∀ c : Nat,
    (allocTags c n).2 = c + n
    ∧ List.Pairwise (· < ·) (allocTags c n).1
    ∧ (∀ t ∈ (allocTags c n).1, c < t ∧ t ≤ c + n) := by
  induction n with
  | zero => intro c; exact ⟨rfl, List.Pairwise.nil, by simp [allocTags]⟩
  | succ k ih =>
    intro c
    obtain ⟨hsnd, hpw, hmem⟩ := ih (c + 1)
    refine ⟨?_, ?_, ?_⟩
    · simp only [allocTags, get_tag]
      omega
    · simp only [allocTags, get_tag]
      exact List.Pairwise.cons (fun t ht => (hmem t ht).1) hpw
    · intro t ht
      simp only [allocTags, get_tag, List.mem_cons] at ht
      rcases ht with h | h
      · omega
      · have := hmem t h
        omega

/-- C9: tag allocation is strictly increasing and never reset: the tags of
`n` constructions followed by `m` further constructions (a second,
independent `Pile` build continuing from the counter the first left
behind) form one strictly increasing, duplicate-free sequence, every tag
exceeding the counter value it started from. -/
theorem tags_unique_across_builds (c n m : Nat) :
    (allocTags c n).2 = c + n
    ∧ List.Pairwise (· < ·)
        ((allocTags c n).1 ++ (allocTags (allocTags c n).2 m).1)
    ∧ ((allocTags c n).1 ++ (allocTags (allocTags c n).2 m).1).Nodup
    ∧ (∀ t ∈ (allocTags c n).1, c < t) := by
  obtain ⟨hsnd1, hpw1, hmem1⟩ := allocTags_spec n c
  obtain ⟨hsnd2, hpw2, hmem2⟩ := allocTags_spec m (allocTags c n).2
  have hpw : List.Pairwise (· < ·)
      ((allocTags c n).1 ++ (allocTags (allocTags c n).2 m).1) := by
    rw [List.pairwise_append]
    refine ⟨hpw1, hpw2, ?_⟩
    intro a ha b hb
    have h1 := hmem1 a ha
    have h2 := hmem2 b hb
    omega
  exact ⟨hsnd1, hpw, hpw.imp Nat.ne_of_lt, fun t ht => (hmem1 t ht).1⟩

/-- C10: the cross-sectional area a `PileElement` passes to the engine is
the explicitly supplied area when it is non-`None` and nonzero, and falls
back to the circular section `pi * pile_radius^2` both when the area is
`None` and when it is exactly `0` (Python truthiness of `0.0`). -/
theorem pileElement_area_truthiness (n1 n2 mt : Nat) (r pi a : ℚ) (h : a ≠ 0) :
    PileElement.sectionArea pi ⟨n1, n2, r, mt, some a⟩ = a
    ∧ PileElement.sectionArea pi ⟨n1, n2, r, mt, none⟩ = pi * r ^ 2
    ∧ PileElement.sectionArea pi ⟨n1, n2, r, mt, some 0⟩ = pi * r ^ 2 := by
  refine ⟨?_, rfl, ?_⟩
  · simp [PileElement.sectionArea, h]
  · simp [PileElement.sectionArea]

/-- Witness for C10 at a concrete element: explicit area 2 with radius 5
is used as given; `None` and `0` give the circular section. -/
theorem pileElement_area_truthiness_witness :
    (2 : ℚ) ≠ 0
    ∧ (PileElement.sectionArea 3 ⟨1, 2, 5, 7, some 2⟩ = 2
      ∧ PileElement.sectionArea 3 ⟨1, 2, 5, 7, none⟩ = 3 * 5 ^ 2
      ∧ PileElement.sectionArea 3 ⟨1, 2, 5, 7, some 0⟩ = 3 * 5 ^ 2) :=
  ⟨by norm_num, pileElement_area_truthiness 1 2 7 5 3 2 (by norm_num)⟩

/-- Helper: NaN absorbs on the left of the summing addition. -/
theorem npAdd_none_left (acc : NpFloat) : npAdd none acc = none := by
  cases acc <;> rfl

/-- Helper: NaN absorbs on the right of the summing addition. -/
theorem npAdd_none_right (x : NpFloat) : npAdd x none = none := by
  cases x <;> rfl

/-- Helper: subtracting NaN gives NaN. -/
theorem npSub_none_right (x : NpFloat) : npSub x none = none := by
  cases x <;> rfl

/-- Helper: a NaN anywhere in the compared vectors makes the summed
squared difference NaN. -/
theorem npSum_sq_diff_none (y1 : List NpFloat) : ∀ y2 : List NpFloat,
    y1.length = y2.length → none ∈ y1 →
    npSum ((List.zipWith npSub y2 y1).map npSq) = none := by
  induction y1 with
  | nil => intro y2 _ h; simp at h
  | cons x xs ih =>
    intro y2 hlen hmem
    cases y2 with
    | nil => simp at hlen
    | cons y ys =>
      rcases List.mem_cons.mp hmem with hx | hxs
      · have h1 : npSub y x = none := by rw [← hx]; exact npSub_none_right y
        show npSum (npSq (npSub y x) :: (List.zipWith npSub ys xs).map npSq) = none
        rw [h1]
        show npAdd none (npSum ((List.zipWith npSub ys xs).map npSq)) = none
        exact npAdd_none_left _
      · have hlen' : xs.length = ys.length := by
          simpa using hlen
        have h2 := ih ys hlen' hxs
        show npAdd (npSq (npSub y x)) (npSum ((List.zipWith npSub ys xs).map npSq)) = none
        rw [h2]
        exact npAdd_none_right _

/-- C3 counterexample: for the interpolated vector `[NaN]` compared with
the measured vector `[0]`, `cost` returns NaN — not the finite sentinel
`1e6` (which, as the value of `np.sqrt`, would be `sqrtOf (10^12)` since
`1e6 = √(1e12)`). -/
theorem cost_nan_not_sentinel :
    (none : NpFloat) ∈ [(none : NpFloat)]
    ∧ Calibrator.cost_value [none] [some 0] = LSValue.nan
    ∧ Calibrator.cost_value [none] [some 0] ≠ LSValue.sqrtOf 1000000000000 := by
  refine ⟨List.mem_singleton.mpr rfl, rfl, ?_⟩
  intro h
  exact LSValue.noConfusion (rfl.trans h)

/-- C3 (amended): whenever the interpolated force vector contains a NaN,
`Calibrator.cost` propagates it and returns NaN; the source has no
sentinel branch, so no `1e6` is ever produced for a NaN input, and
nothing is raised. -/
theorem cost_value_nan_propagates (interp measured : List NpFloat)
    (hlen : interp.length = measured.length) (hnan : none ∈ interp) :
    Calibrator.cost_value interp measured = LSValue.nan := by
  unfold Calibrator.cost_value Calibrator.least_square
  rw [npSum_sq_diff_none interp measured hlen hnan]
  rfl

/-- Witness for C3 at a concrete input: a two-entry interpolated vector
whose second entry is NaN yields NaN. -/
theorem cost_value_nan_propagates_witness :
    ([some 1, none] : List NpFloat).length = ([some 2, some 3] : List NpFloat).length
    ∧ (none : NpFloat) ∈ ([some 1, none] : List NpFloat)
    ∧ Calibrator.cost_value [some 1, none] [some 2, some 3] = LSValue.nan :=
  ⟨rfl, by simp,
    cost_value_nan_propagates [some 1, none] [some 2, some 3] rfl (by simp)⟩

/-- C4 counterexample: a run of three increments in which every call to
`ops.analyze(1)` reports failure still returns full-length displacement
and force histories, identical to those of a run in which every increment
converged — no NonConvergence failure is surfaced and no increment is
skipped. -/
theorem analyze_counterexample :
    (fun _ : Nat => false) 0 = false
    ∧ (Pile.analyze 3 1 (fun _ => false) (fun s => s) (fun s => s)).1.length = 3
    ∧ (Pile.analyze 3 1 (fun _ => false) (fun s => s) (fun s => s)).2.length = 3
    ∧ Pile.analyze 3 1 (fun _ => false) (fun s => s) (fun s => s)
      = Pile.analyze 3 1 (fun _ => true) (fun s => s) (fun s => s) :=
  ⟨rfl, rfl, rfl, rfl⟩

/-- C4 (amended): `Pile.analyze` discards the status each `ops.analyze(1)`
call returns: even when some increment among the `number_of_steps` fails
to converge, it runs through all increments, returns displacement and
force lists of full length `number_of_steps`, and produces a result
independent of the convergence statuses — no NonConvergence failure is
surfaced to the caller. -/
theorem analyze_ignores_convergence (n : Nat) (load : ℚ)
    (conv conv' : Nat → Bool) (loadFactor nodeDisp : Nat → ℚ) (k : Nat)
    (hk : k < n) (hfail : conv k = false) :
    (Pile.analyze n load conv loadFactor nodeDisp).1.length = n
    ∧ (Pile.analyze n load conv loadFactor nodeDisp).2.length = n
    ∧ Pile.analyze n load conv loadFactor nodeDisp
      = Pile.analyze n load conv' loadFactor nodeDisp := by
  refine ⟨?_, ?_, rfl⟩ <;> simp [Pile.analyze]

/-- Witness for C4: applying the theorem at three increments with a
failure at step 0. -/
theorem analyze_ignores_convergence_witness :
    0 < 3
    ∧ (fun _ : Nat => false) 0 = false
    ∧ ((Pile.analyze 3 2 (fun _ => false) (fun s => s) (fun s => s)).1.length = 3
      ∧ (Pile.analyze 3 2 (fun _ => false) (fun s => s) (fun s => s)).2.length = 3
      ∧ Pile.analyze 3 2 (fun _ => false) (fun s => s) (fun s => s)
        = Pile.analyze 3 2 (fun _ => true) (fun s => s) (fun s => s)) :=
  ⟨by decide, rfl,
    analyze_ignores_convergence 3 2 (fun _ => false) (fun _ => true)
      (fun s => s) (fun s => s) 0 (by decide) rfl⟩

/-- C7: for a depth located in a layer (the layer `__find_layer` returns),
the profile's `shear_modulus`, `poisson_ratio` and `tau_f` equal the
linear interpolation between that layer's endpoint values with depth as
the interpolation parameter, and the layer formulas return the endpoint
values exactly at `up_depth` and at `bottom_depth`. -/
theorem soilProfile_linear_interpolation (p : SoilProfile) (L : SoilLayer)
    (d : ℚ) (hL : L.up_depth < L.bottom_depth) (hfind : p.findLayer d = some L) :
    p.shear_modulus d
      = some (lerpSpec L.up_depth L.bottom_depth L.up_shear_modulus L.bottom_shear_modulus d)
    ∧ p.poisson_ratio d
      = some (lerpSpec L.up_depth L.bottom_depth L.up_poisson_ratio L.bottom_poisson_ratio d)
    ∧ p.tau_f d
      = some (lerpSpec L.up_depth L.bottom_depth L.up_tau_f L.bottom_tau_f d)
    ∧ L.shear_modulus L.up_depth = L.up_shear_modulus
    ∧ L.shear_modulus L.bottom_depth = L.bottom_shear_modulus
    ∧ L.poisson_ratio L.up_depth = L.up_poisson_ratio
    ∧ L.poisson_ratio L.bottom_depth = L.bottom_poisson_ratio
    ∧ L.tau_f L.up_depth = L.up_tau_f
    ∧ L.tau_f L.bottom_depth = L.bottom_tau_f := by
  have hne : L.bottom_depth - L.up_depth ≠ 0 := sub_ne_zero.mpr hL.ne'
  refine ⟨?_, ?_, ?_, ?_, ?_, ?_, ?_, ?_, ?_⟩
  · rw [SoilProfile.shear_modulus, hfind, Option.map_some']
    congr 1
    rw [SoilLayer.shear_modulus, lerpSpec]
    field_simp
    ring
  · rw [SoilProfile.poisson_ratio, hfind, Option.map_some']
    congr 1
    rw [SoilLayer.poisson_ratio, lerpSpec]
    field_simp
    ring
  · rw [SoilProfile.tau_f, hfind, Option.map_some']
    congr 1
    rw [SoilLayer.tau_f, lerpSpec]
    field_simp
    ring
  · simp [SoilLayer.shear_modulus]
  · rw [SoilLayer.shear_modulus]
    field_simp
  · simp [SoilLayer.poisson_ratio]
  · rw [SoilLayer.poisson_ratio]
    field_simp
  · simp [SoilLayer.tau_f]
  · rw [SoilLayer.tau_f]
    field_simp

/-- C6: for strictly positive initial stiffness `Ke` and ultimate capacity
`tau_ult`, the hyperbolic law `F(d) = d / (a + b*d)` with `a = 1/Ke`,
`b = 1/tau_ult` satisfies: `a` and `b` are positive, `F(0) = 0`, `F` is
strictly increasing for displacements from 0 upward, every sampled force
(at the strictly increasing positive sample displacements) is strictly
below `tau_ult` with the sampled table strictly increasing, and `F`
approaches `tau_ult` from below within any positive tolerance once the
displacement is large enough. -/
theorem friction_hyperbolic_law (Ke tau_ult : ℚ) (hKe : 0 < Ke)
    (htau : 0 < tau_ult) (strains : List ℚ)
    (hsorted : List.Pairwise (· < ·) strains) (hpos : ∀ x ∈ strains, 0 < x) :
    0 < PileFrictionMaterial.a Ke
    ∧ 0 < PileFrictionMaterial.b tau_ult
    ∧ PileFrictionMaterial.force Ke tau_ult 0 = 0
    ∧ (∀ d1 d2 : ℚ, 0 ≤ d1 → d1 < d2 →
        PileFrictionMaterial.force Ke tau_ult d1 < PileFrictionMaterial.force Ke tau_ult d2)
    ∧ (∀ y ∈ PileFrictionMaterial.sampleForces Ke tau_ult strains, y < tau_ult)
    ∧ List.Pairwise (· < ·) (PileFrictionMaterial.sampleForces Ke tau_ult strains)
    ∧ (∀ ε : ℚ, 0 < ε → ∃ D : ℚ, 0 < D ∧ ∀ d : ℚ, D ≤ d →
        PileFrictionMaterial.force Ke tau_ult d < tau_ult
        ∧ tau_ult - PileFrictionMaterial.force Ke tau_ult d < ε) := by
  have ha : 0 < PileFrictionMaterial.a Ke := by
    rw [PileFrictionMaterial.a]; positivity
  have hb : 0 < PileFrictionMaterial.b tau_ult := by
    rw [PileFrictionMaterial.b]; positivity
  set A := PileFrictionMaterial.a Ke with hA
  set B := PileFrictionMaterial.b tau_ult with hB
  have htauB : tau_ult * B = 1 := by
    rw [hB, PileFrictionMaterial.b]
    field_simp
  have hforce : ∀ d : ℚ, PileFrictionMaterial.force Ke tau_ult d = d / (A + B * d) :=
    fun d => rfl
  have hden : ∀ d : ℚ, 0 ≤ d → 0 < A + B * d := by
    intro d hd
    have : 0 ≤ B * d := mul_nonneg hb.le hd
    linarith
  have hmono : ∀ d1 d2 : ℚ, 0 ≤ d1 → d1 < d2 →
      PileFrictionMaterial.force Ke tau_ult d1 < PileFrictionMaterial.force Ke tau_ult d2 := by
    intro d1 d2 h1 h12
    rw [hforce, hforce, div_lt_div_iff (hden d1 h1) (hden d2 (by linarith))]
    nlinarith [mul_pos ha (sub_pos.mpr h12)]
  have hlt : ∀ d : ℚ, 0 ≤ d → PileFrictionMaterial.force Ke tau_ult d < tau_ult := by
    intro d hd
    rw [hforce, div_lt_iff (hden d hd)]
    have : tau_ult * (A + B * d) = tau_ult * A + d := by
      rw [mul_add, mul_comm B d, ← mul_assoc, mul_comm tau_ult d, mul_assoc, htauB]
      ring
    nlinarith [mul_pos htau ha]
  refine ⟨ha, hb, ?_, hmono, ?_, ?_, ?_⟩
  · rw [hforce]; exact zero_div _
  · intro y hy
    rcases List.mem_map.mp hy with ⟨x, hx, rfl⟩
    exact hlt x (hpos x hx).le
  · rw [PileFrictionMaterial.sampleForces, List.pairwise_map]
    refine hsorted.imp_of_mem ?_
    intro x1 x2 hx1 _ h12
    exact hmono x1 x2 (hpos x1 hx1).le h12
  · intro ε hε
    refine ⟨tau_ult * A / (ε * B), by positivity, ?_⟩
    intro d hd
    have hd0 : 0 ≤ d := le_trans (by positivity) hd
    have hdenpos := hden d hd0
    refine ⟨hlt d hd0, ?_⟩
    have hgap : tau_ult - PileFrictionMaterial.force Ke tau_ult d
        = tau_ult * A / (A + B * d) := by
      rw [hforce, eq_div_iff hdenpos.ne']
      have : tau_ult * (A + B * d) = tau_ult * A + d := by
        rw [mul_add, mul_comm B d, ← mul_assoc, mul_comm tau_ult d, mul_assoc, htauB]
        ring
      have hfrac : d / (A + B * d) * (A + B * d) = d :=
        div_mul_cancel₀ d hdenpos.ne'
      nlinarith [hfrac]
    rw [hgap, div_lt_iff hdenpos]
    have hBD : B * (tau_ult * A / (ε * B)) = tau_ult * A / ε := by
      field_simp
      ring
    have hstep : ε * (A + B * d) ≥ ε * (A + tau_ult * A / ε) := by
      have h1 : B * d ≥ tau_ult * A / ε := by
        calc B * d ≥ B * (tau_ult * A / (ε * B)) :=
              mul_le_mul_of_nonneg_left hd hb.le
          _ = tau_ult * A / ε := hBD
      have h2 : A + B * d ≥ A + tau_ult * A / ε := by linarith
      exact mul_le_mul_of_nonneg_left h2 hε.le
    have hcancel : ε * (A + tau_ult * A / ε) = ε * A + tau_ult * A := by
      field_simp
      ring
    nlinarith [mul_pos hε ha]

/-- Witness for C6 at a concrete input: `Ke = 2`, `tau_ult = 5` and the
sample displacements `[1/1000000000000, 1/100, 1/10]` (the endpoints and
an interior point of the source's geometric grid). -/
theorem friction_hyperbolic_law_witness :
    (0 : ℚ) < 2 ∧ (0 : ℚ) < 5
    ∧ List.Pairwise (· < ·) [(1 : ℚ) / 1000000000000, 1 / 100, 1 / 10]
    ∧ (∀ x ∈ [(1 : ℚ) / 1000000000000, 1 / 100, 1 / 10], 0 < x)
    ∧ (0 < PileFrictionMaterial.a 2
      ∧ 0 < PileFrictionMaterial.b 5
      ∧ PileFrictionMaterial.force 2 5 0 = 0
      ∧ (∀ d1 d2 : ℚ, 0 ≤ d1 → d1 < d2 →
          PileFrictionMaterial.force 2 5 d1 < PileFrictionMaterial.force 2 5 d2)
      ∧ (∀ y ∈ PileFrictionMaterial.sampleForces 2 5
          [(1 : ℚ) / 1000000000000, 1 / 100, 1 / 10], y < 5)
      ∧ List.Pairwise (· < ·) (PileFrictionMaterial.sampleForces 2 5
          [(1 : ℚ) / 1000000000000, 1 / 100, 1 / 10])
      ∧ (∀ ε : ℚ, 0 < ε → ∃ D : ℚ, 0 < D ∧ ∀ d : ℚ, D ≤ d →
          PileFrictionMaterial.force 2 5 d < 5
          ∧ 5 - PileFrictionMaterial.force 2 5 d < ε)) :=
  ⟨by norm_num, by norm_num, by norm_num, by norm_num,
    friction_hyperbolic_law 2 5 (by norm_num) (by norm_num)
      [(1 : ℚ) / 1000000000000, 1 / 100, 1 / 10] (by norm_num) (by norm_num)⟩

/-- C5 counterexample: the tip material `tipMaterialNegRadius` satisfies
every hypothesis the claim states — its profile's tip shear modulus is 1
(positive), tip Poisson ratio 0 (below 1), `Rfb = 1 > 0`,
`alpha21 = 0 ≥ 0` and `0 < Sbu = 1/20 < 0.1` — yet because its pile
radius is negative its stiffness `k1` is `-4` and its breakpoint stresses
`[0, -1/5, -1/5]` decrease, so the law is not non-decreasing: the claim
omits a positivity condition on the radius.  (`np.pi` is instantiated at
3; the sign of `k1` is the same for every positive value.) -/
theorem tip_law_counterexample :
    tipMaterialNegRadius.soil_profile.tip_shear_modulus = some 1
    ∧ tipMaterialNegRadius.soil_profile.tip_poisson_ratio = some 0
    ∧ (0 : ℚ) < 1 ∧ (0 : ℚ) < 1
    ∧ 0 < tipMaterialNegRadius.Rfb
    ∧ 0 ≤ tipMaterialNegRadius.alpha21
    ∧ 0 < tipMaterialNegRadius.Sbu
    ∧ tipMaterialNegRadius.Sbu < 1 / 10
    ∧ tipMaterialNegRadius.k1 3 = some (-4)
    ∧ tipMaterialNegRadius.stresses 3 = some [0, -(1 / 5), -(1 / 5)]
    ∧ PileTipMaterial.lawAt (-4) ((-4) * tipMaterialNegRadius.alpha21)
        tipMaterialNegRadius.Sbu (1 / 20)
      < PileTipMaterial.lawAt (-4) ((-4) * tipMaterialNegRadius.alpha21)
        tipMaterialNegRadius.Sbu 0 := by
  refine ⟨?_, ?_, by norm_num, by norm_num, by norm_num [tipMaterialNegRadius],
    by norm_num [tipMaterialNegRadius], by norm_num [tipMaterialNegRadius],
    by norm_num [tipMaterialNegRadius], ?_, ?_, ?_⟩
  · norm_num [tipMaterialNegRadius, negDepthProfile, negDepthLayer,
      SoilProfile.tip_shear_modulus, SoilProfile.shear_modulus,
      SoilProfile.findLayer, SoilProfile.pile_length, SoilLayer.length,
      List.find?, SoilLayer.shear_modulus]
  · norm_num [tipMaterialNegRadius, negDepthProfile, negDepthLayer,
      SoilProfile.tip_poisson_ratio, SoilProfile.poisson_ratio,
      SoilProfile.findLayer, SoilProfile.pile_length, SoilLayer.length,
      List.find?, SoilLayer.poisson_ratio]
  · norm_num [tipMaterialNegRadius, negDepthProfile, negDepthLayer,
      PileTipMaterial.k1, PileTipMaterial.k1b, PileTipMaterial.pile_tip_area,
      SoilProfile.tip_shear_modulus, SoilProfile.tip_poisson_ratio,
      SoilProfile.shear_modulus, SoilProfile.poisson_ratio,
      SoilProfile.findLayer, SoilProfile.pile_length, SoilLayer.length,
      List.find?, SoilLayer.shear_modulus, SoilLayer.poisson_ratio]
  · norm_num [tipMaterialNegRadius, negDepthProfile, negDepthLayer,
      PileTipMaterial.stresses, PileTipMaterial.k1, PileTipMaterial.k2,
      PileTipMaterial.k1b, PileTipMaterial.pile_tip_area,
      SoilProfile.tip_shear_modulus, SoilProfile.tip_poisson_ratio,
      SoilProfile.shear_modulus, SoilProfile.poisson_ratio,
      SoilProfile.findLayer, SoilProfile.pile_length, SoilLayer.length,
      List.find?, SoilLayer.shear_modulus, SoilLayer.poisson_ratio]
  · norm_num [tipMaterialNegRadius, PileTipMaterial.lawAt]

/-- C5 (amended): for a tip material whose profile tip lookups give shear
modulus `g > 0` and Poisson ratio `v < 1`, with `Rfb > 0`,
`alpha21 ≥ 0`, `0 < Sbu < 0.1` and — the condition the counterexample
forces — `pile_radius > 0` (with `np.pi > 0`): the breakpoint table is
exactly `(0,0)`, `(Sbu, Sbu*k1)`, `(0.1, Sbu*k1 + (0.1-Sbu)*k2)` with
`k1 = k1b / Rfb` and `k2 = k1 * alpha21`, `k1` is positive, and the
piecewise-linear law through the table is non-decreasing everywhere and
continuous at `Sbu` (its two linear pieces agree there). -/
theorem tip_law_table_monotone (pi : ℚ) (m : PileTipMaterial) (g v : ℚ)
    (hpi : 0 < pi) (hg : m.soil_profile.tip_shear_modulus = some g)
    (hv : m.soil_profile.tip_poisson_ratio = some v) (hgpos : 0 < g)
    (hv1 : v < 1) (hr : 0 < m.pile_radius) (hRfb : 0 < m.Rfb)
    (halpha : 0 ≤ m.alpha21) (hS0 : 0 < m.Sbu) (hS1 : m.Sbu < 1 / 10) :
    ∃ K1 : ℚ,
      m.k1 pi = some K1
      ∧ K1 = 4 * g / (pi * m.pile_radius * (1 - v)) * (pi * m.pile_radius ^ 2) / m.Rfb
      ∧ m.k2 pi = some (K1 * m.alpha21)
      ∧ m.strains = [0, m.Sbu, 1 / 10]
      ∧ m.stresses pi = some [0, m.Sbu * K1, m.Sbu * K1 + (1 / 10 - m.Sbu) * (K1 * m.alpha21)]
      ∧ 0 < K1
      ∧ Monotone (PileTipMaterial.lawAt K1 (K1 * m.alpha21) m.Sbu)
      ∧ PileTipMaterial.lawAt K1 (K1 * m.alpha21) m.Sbu m.Sbu = m.Sbu * K1
      ∧ m.Sbu * K1 + (m.Sbu - m.Sbu) * (K1 * m.alpha21) = m.Sbu * K1 := by
  have h1v : 0 < 1 - v := by linarith
  set K1 := 4 * g / (pi * m.pile_radius * (1 - v)) * (pi * m.pile_radius ^ 2) / m.Rfb
    with hK1def
  have hk1b : m.k1b pi
      = some (4 * g / (pi * m.pile_radius * (1 - v)) * (pi * m.pile_radius ^ 2)) := by
    rw [PileTipMaterial.k1b, hg, hv, PileTipMaterial.pile_tip_area]
  have hk1 : m.k1 pi = some K1 := by
    rw [PileTipMaterial.k1, hk1b, Option.map_some']
  have hK1pos : 0 < K1 := by
    rw [hK1def]
    have hnum : 0 < 4 * g / (pi * m.pile_radius * (1 - v)) :=
      div_pos (by linarith) (by positivity)
    exact div_pos (mul_pos hnum (by positivity)) hRfb
  have hK2 : 0 ≤ K1 * m.alpha21 := mul_nonneg hK1pos.le halpha
  refine ⟨K1, hk1, rfl, ?_, rfl, ?_, hK1pos, ?_, ?_, by ring⟩
  · rw [PileTipMaterial.k2, hk1, Option.map_some']
  · rw [PileTipMaterial.stresses, hk1, PileTipMaterial.k2, hk1, Option.map_some']
  · intro d1 d2 h12
    rw [PileTipMaterial.lawAt, PileTipMaterial.lawAt]
    rcases le_or_lt d1 m.Sbu with hc1 | hc1 <;>
      rcases le_or_lt d2 m.Sbu with hc2 | hc2
    · rw [if_pos hc1, if_pos hc2]
      nlinarith
    · rw [if_pos hc1, if_neg (not_le.mpr hc2)]
      nlinarith
    · linarith
    · rw [if_neg (not_le.mpr hc1), if_neg (not_le.mpr hc2)]
      nlinarith
  · rw [PileTipMaterial.lawAt, if_pos le_rfl]

/-- Witness for C5 at a concrete input: the tip material over
`negDepthProfile` with radius 1, `Rfb = 1`, `Sbu = 1/20`,
`alpha21 = 1/2`, and `np.pi` instantiated at 3. -/
theorem tip_law_table_monotone_witness :
    ((0 : ℚ) < 3
      ∧ tipMaterialPos.soil_profile.tip_shear_modulus = some 1
      ∧ tipMaterialPos.soil_profile.tip_poisson_ratio = some 0
      ∧ (0 : ℚ) < 1 ∧ (0 : ℚ) < 1
      ∧ 0 < tipMaterialPos.pile_radius
      ∧ 0 < tipMaterialPos.Rfb
      ∧ 0 ≤ tipMaterialPos.alpha21
      ∧ 0 < tipMaterialPos.Sbu
      ∧ tipMaterialPos.Sbu < 1 / 10)
    ∧ (∃ K1 : ℚ,
        tipMaterialPos.k1 3 = some K1
        ∧ K1 = 4 * 1 / (3 * tipMaterialPos.pile_radius * (1 - 0))
            * (3 * tipMaterialPos.pile_radius ^ 2) / tipMaterialPos.Rfb
        ∧ tipMaterialPos.k2 3 = some (K1 * tipMaterialPos.alpha21)
        ∧ tipMaterialPos.strains = [0, tipMaterialPos.Sbu, 1 / 10]
        ∧ tipMaterialPos.stresses 3
          = some [0, tipMaterialPos.Sbu * K1,
              tipMaterialPos.Sbu * K1
                + (1 / 10 - tipMaterialPos.Sbu) * (K1 * tipMaterialPos.alpha21)]
        ∧ 0 < K1
        ∧ Monotone (PileTipMaterial.lawAt K1 (K1 * tipMaterialPos.alpha21)
            tipMaterialPos.Sbu)
        ∧ PileTipMaterial.lawAt K1 (K1 * tipMaterialPos.alpha21)
            tipMaterialPos.Sbu tipMaterialPos.Sbu = tipMaterialPos.Sbu * K1
        ∧ tipMaterialPos.Sbu * K1
            + (tipMaterialPos.Sbu - tipMaterialPos.Sbu) * (K1 * tipMaterialPos.alpha21)
          = tipMaterialPos.Sbu * K1) :=
  ⟨⟨by norm_num,
    by norm_num [tipMaterialPos, negDepthProfile, negDepthLayer,
      SoilProfile.tip_shear_modulus, SoilProfile.shear_modulus,
      SoilProfile.findLayer, SoilProfile.pile_length, SoilLayer.length,
      List.find?, SoilLayer.shear_modulus],
    by norm_num [tipMaterialPos, negDepthProfile, negDepthLayer,
      SoilProfile.tip_poisson_ratio, SoilProfile.poisson_ratio,
      SoilProfile.findLayer, SoilProfile.pile_length, SoilLayer.length,
      List.find?, SoilLayer.poisson_ratio],
    by norm_num, by norm_num, by norm_num [tipMaterialPos],
    by norm_num [tipMaterialPos], by norm_num [tipMaterialPos],
    by norm_num [tipMaterialPos], by norm_num [tipMaterialPos]⟩,
   tip_law_table_monotone 3 tipMaterialPos 1 0 (by norm_num)
    (by norm_num [tipMaterialPos, negDepthProfile, negDepthLayer,
      SoilProfile.tip_shear_modulus, SoilProfile.shear_modulus,
      SoilProfile.findLayer, SoilProfile.pile_length, SoilLayer.length,
      List.find?, SoilLayer.shear_modulus])
    (by norm_num [tipMaterialPos, negDepthProfile, negDepthLayer,
      SoilProfile.tip_poisson_ratio, SoilProfile.poisson_ratio,
      SoilProfile.findLayer, SoilProfile.pile_length, SoilLayer.length,
      List.find?, SoilLayer.poisson_ratio])
    (by norm_num) (by norm_num) (by norm_num [tipMaterialPos])
    (by norm_num [tipMaterialPos]) (by norm_num [tipMaterialPos])
    (by norm_num [tipMaterialPos]) (by norm_num [tipMaterialPos])⟩

/-- Helper: running any number of `ops.analyze(1)` increments leaves the
engine's nodes, materials and elements untouched. -/
theorem runCmds_analyzeSteps_model (n : Nat) : ∀ s : OpsState,
    (runCmds s (List.replicate n OpsCmd.analyzeStep)).nodeTags = s.nodeTags
    ∧ (runCmds s (List.replicate n OpsCmd.analyzeStep)).materialTags = s.materialTags
    ∧ (runCmds s (List.replicate n OpsCmd.analyzeStep)).elementTags = s.elementTags := by
  induction n with
  | zero => intro s; exact ⟨rfl, rfl, rfl⟩
  | succ k ih =>
    intro s
    rw [List.replicate_succ]
    exact ih { s with analyzeCount := s.analyzeCount + 1 }

/-- C2: a `Calibrator.cost` evaluation performs no engine reset and builds
nothing: from any engine state, the engine calls of `cost` (solver
configuration plus the load increments of `Pile.analyze`) leave the node,
material and element tags exactly as they were.  In particular, after a
`Pile` build with 3 nodes followed by one `cost` evaluation with 300
increments, the analyzed model consists of exactly the nodes, materials
and elements of the prior build — the claim's fresh rebuild never
happens. -/
theorem calibrator_cost_reuses_model :
    (∀ (s : OpsState) (steps : Nat),
      (runCmds s (Calibrator.costCmds steps)).nodeTags = s.nodeTags
      ∧ (runCmds s (Calibrator.costCmds steps)).materialTags = s.materialTags
      ∧ (runCmds s (Calibrator.costCmds steps)).elementTags = s.elementTags)
    ∧ (runCmds (runCmds initialOps (Pile.buildCmds 0 3 (131 / 10) 653000).1)
        (Calibrator.costCmds 300)).nodeTags
      = (runCmds initialOps (Pile.buildCmds 0 3 (131 / 10) 653000).1).nodeTags
    ∧ (runCmds (runCmds initialOps (Pile.buildCmds 0 3 (131 / 10) 653000).1)
        (Calibrator.costCmds 300)).materialTags
      = (runCmds initialOps (Pile.buildCmds 0 3 (131 / 10) 653000).1).materialTags
    ∧ (runCmds (runCmds initialOps (Pile.buildCmds 0 3 (131 / 10) 653000).1)
        (Calibrator.costCmds 300)).elementTags
      = (runCmds initialOps (Pile.buildCmds 0 3 (131 / 10) 653000).1).elementTags
    ∧ (runCmds initialOps (Pile.buildCmds 0 3 (131 / 10) 653000).1).nodeTags
      = [2, 3, 4, 5, 6, 7]
    ∧ (runCmds initialOps (Pile.buildCmds 0 3 (131 / 10) 653000).1).materialTags
      = [1, 10, 12, 14]
    ∧ (runCmds initialOps (Pile.buildCmds 0 3 (131 / 10) 653000).1).elementTags
      = [8, 9, 11, 13, 15] := by
  have hgen : ∀ (s : OpsState) (steps : Nat),
      (runCmds s (Calibrator.costCmds steps)).nodeTags = s.nodeTags
      ∧ (runCmds s (Calibrator.costCmds steps)).materialTags = s.materialTags
      ∧ (runCmds s (Calibrator.costCmds steps)).elementTags = s.elementTags := by
    intro s steps
    exact runCmds_analyzeSteps_model steps s
  refine ⟨hgen, ?_, ?_, ?_, ?_, ?_, ?_⟩ <;> decide

/-- Witness for C7 at a concrete input: `sampleProfile` queried at depth
`1/2`, which lies inside `sampleLayer`. -/
theorem soilProfile_linear_interpolation_witness :
    (sampleLayer.up_depth < sampleLayer.bottom_depth
      ∧ sampleProfile.findLayer (1 / 2) = some sampleLayer)
    ∧ (sampleProfile.shear_modulus (1 / 2)
        = some (lerpSpec sampleLayer.up_depth sampleLayer.bottom_depth
            sampleLayer.up_shear_modulus sampleLayer.bottom_shear_modulus (1 / 2))
      ∧ sampleProfile.poisson_ratio (1 / 2)
        = some (lerpSpec sampleLayer.up_depth sampleLayer.bottom_depth
            sampleLayer.up_poisson_ratio sampleLayer.bottom_poisson_ratio (1 / 2))
      ∧ sampleProfile.tau_f (1 / 2)
        = some (lerpSpec sampleLayer.up_depth sampleLayer.bottom_depth
            sampleLayer.up_tau_f sampleLayer.bottom_tau_f (1 / 2))
      ∧ sampleLayer.shear_modulus sampleLayer.up_depth = sampleLayer.up_shear_modulus
      ∧ sampleLayer.shear_modulus sampleLayer.bottom_depth = sampleLayer.bottom_shear_modulus
      ∧ sampleLayer.poisson_ratio sampleLayer.up_depth = sampleLayer.up_poisson_ratio
      ∧ sampleLayer.poisson_ratio sampleLayer.bottom_depth = sampleLayer.bottom_poisson_ratio
      ∧ sampleLayer.tau_f sampleLayer.up_depth = sampleLayer.up_tau_f
      ∧ sampleLayer.tau_f sampleLayer.bottom_depth = sampleLayer.bottom_tau_f) :=
  ⟨⟨by norm_num [sampleLayer],
    by norm_num [sampleProfile, sampleLayer, SoilProfile.findLayer, List.find?]⟩,
   soilProfile_linear_interpolation sampleProfile sampleLayer (1 / 2)
    (by norm_num [sampleLayer])
    (by norm_num [sampleProfile, sampleLayer, SoilProfile.findLayer, List.find?])⟩
